import Mathlib

/-!
Verification of the rs-hyperliquid WebSocket client against its
natural-language specification.

The Rust sources are embedded shallowly:
* `ClientState` and its methods mirror `src/client_state.rs` (the
  `HashMap<String, i64>` of last trade ids becomes an association list with
  replace-on-insert semantics; `AtomicU32`/`AtomicU64` counters become `Nat`
  with the wrap-around of `fetch_add` made explicit via `% 2^32` / `% 2^64`;
  `Instant` timestamps become `Nat` seconds supplied by the caller; fresh
  UUID generation is modelled as bumping a numeric id).
* The message types and serde deserialization mirror `src/types.rs`; JSON
  documents are modelled by an inductive `Json` value and each `Deserialize`
  impl becomes a parser `Json → Option _` with serde's field semantics
  (field order irrelevant, unknown fields ignored, duplicate known fields
  rejected, missing `Option` fields defaulting to `none`).
* The connection loop, frame handling and dispatch mirror `src/client.rs`;
  the transport is abstracted as a script of outcomes (connect result and
  elapsed wall time, TLS/handshake results, then a list of inbound frames
  with inter-arrival gaps), and each `connect_and_run` / `run` level
  function returns the state, the emitted `ClientEvent`s and its outcome.
-/

set_option autoImplicit false

namespace RsHyperliquid

/-- Wrap-around bound of a Rust `u32` (`AtomicU32::fetch_add` wraps). -/
def u32Lim : Nat := 4294967296

/-- Wrap-around bound of a Rust `u64` (`AtomicU64::fetch_add` wraps). -/
def u64Lim : Nat := 18446744073709551616

/-! ## Integrity-tracker state, from `src/client_state.rs` -/

/-- Lookup in the association-list model of `HashMap<String, i64>`;
mirrors `self.last_trade_ids.get(coin)`. -/
def lookupTid : List (String × Int) → String → Option Int
  | [], _ => none
  | (k, v) :: rest, coin => if k = coin then some v else lookupTid rest coin

/-- Insert in the association-list model of `HashMap<String, i64>`;
mirrors `self.last_trade_ids.insert(coin, trade_id)` (replace or add). -/
def insertTid : List (String × Int) → String → Int → List (String × Int)
  | [], coin, tid => [(coin, tid)]
  | (k, v) :: rest, coin, tid =>
      if k = coin then (coin, tid) :: rest else (k, v) :: insertTid rest coin tid

/-- The fields of `ClientState` in `src/client_state.rs`. -/
structure ClientState where
  connectionId : Nat
  reconnectCount : Nat
  lastMessageTime : Option Nat
  tradeCount : Nat
  isConnected : Bool
  totalMessagesReceived : Nat
  lastTradeIds : List (String × Int)
  duplicateTrades : Nat
  sequenceGaps : Nat
  invalidTimestamps : Nat
  lastDisconnectionTime : Option Nat
deriving DecidableEq

/-- `ClientState::default` / `ClientState::new`. -/
def ClientState.new : ClientState where
  connectionId := 0
  reconnectCount := 0
  lastMessageTime := none
  tradeCount := 0
  isConnected := false
  totalMessagesReceived := 0
  lastTradeIds := []
  duplicateTrades := 0
  sequenceGaps := 0
  invalidTimestamps := 0
  lastDisconnectionTime := none

/-- `ClientState::reset_connection`: fresh connection id, marks the client
connected, stamps the message clock and stores 0 into the reconnect counter. -/
def ClientState.reset_connection (s : ClientState) (now : Nat) : ClientState :=
  { s with
    connectionId := s.connectionId + 1
    lastMessageTime := some now
    isConnected := true
    reconnectCount := 0 }

/-- `ClientState::increment_reconnect`: `fetch_add(1)` on the `u32` counter,
marks the client disconnected and stamps the disconnection time. -/
def ClientState.increment_reconnect (s : ClientState) (now : Nat) : ClientState :=
  { s with
    reconnectCount := (s.reconnectCount + 1) % u32Lim
    isConnected := false
    lastDisconnectionTime := some now }

/-- `ClientState::validate_trade_sequence`: rejects exactly when the id equals
the last-seen id for the coin (default 0 when unseen) and that id is positive;
the reject path bumps the duplicate counter, the accept path stores the id. -/
def ClientState.validate_trade_sequence (s : ClientState) (coin : String)
    (tradeId : Int) : Bool × ClientState :=
  if tradeId = (lookupTid s.lastTradeIds coin).getD 0 ∧
      0 < (lookupTid s.lastTradeIds coin).getD 0 then
    (false, { s with duplicateTrades := (s.duplicateTrades + 1) % u64Lim })
  else
    (true, { s with lastTradeIds := insertTid s.lastTradeIds coin tradeId })

/-- `ClientState::record_invalid_timestamp`. -/
def ClientState.record_invalid_timestamp (s : ClientState) : ClientState :=
  { s with invalidTimestamps := (s.invalidTimestamps + 1) % u64Lim }

/-- `ClientState::record_message`. -/
def ClientState.record_message (s : ClientState) (now : Nat) : ClientState :=
  { s with
    lastMessageTime := some now
    totalMessagesReceived := (s.totalMessagesReceived + 1) % u64Lim }

/-- `ClientState::record_trade`. -/
def ClientState.record_trade (s : ClientState) : ClientState :=
  { s with tradeCount := (s.tradeCount + 1) % u64Lim }

/-- `ClientState::disconnect`. -/
def ClientState.disconnect (s : ClientState) : ClientState :=
  { s with isConnected := false }

/-! ## Wire values: `string_to_float` and the message types of `src/types.rs` -/

/-- Model of a Rust `f64` as produced by `str::parse::<f64>`. Finite values
are kept exact as rationals (rounding to binary is immaterial to the claims
checked here); infinities and NaN are explicit. Overflow of huge exponents to
infinity is not modelled. -/
inductive F64 where
  | finite (val : ℚ)
  | infinite (neg : Bool)
  | nanValue
deriving DecidableEq

def isAsciiDigit (c : Char) : Bool := '0' ≤ c && c ≤ '9'

def digitVal (c : Char) : Nat := c.toNat - '0'.toNat

def digitsToNat (ds : List Char) : Nat :=
  ds.foldl (fun acc c => acc * 10 + digitVal c) 0

def asciiLowerChar (c : Char) : Char :=
  if 'A' ≤ c && c ≤ 'Z' then Char.ofNat (c.toNat + 32) else c

def lowerChars (cs : List Char) : List Char := cs.map asciiLowerChar

/-- Split a character list at the first exponent marker `e`/`E`. -/
def splitAtExpMark : List Char → List Char × Option (List Char)
  | [] => ([], none)
  | c :: rest =>
      if c = 'e' ∨ c = 'E' then ([], some rest)
      else
        match splitAtExpMark rest with
        | (m, e) => (c :: m, e)

/-- Split a character list at the first decimal point. -/
def splitAtDot : List Char → List Char × Option (List Char)
  | [] => ([], none)
  | c :: rest =>
      if c = '.' then ([], some rest)
      else
        match splitAtDot rest with
        | (m, e) => (c :: m, e)

def qPow10 (e : Int) : ℚ :=
  if 0 ≤ e then (10 : ℚ) ^ e.toNat else 1 / (10 : ℚ) ^ (-e).toNat

/-- Exponent of a float literal: optional sign, then at least one digit. -/
def parseExpChars : List Char → Option Int
  | [] => none
  | '+' :: ds =>
      if ds ≠ [] ∧ ds.all isAsciiDigit then some (digitsToNat ds) else none
  | '-' :: ds =>
      if ds ≠ [] ∧ ds.all isAsciiDigit then some (-(digitsToNat ds : Int)) else none
  | ds => if ds.all isAsciiDigit then some (digitsToNat ds) else none

def applySign (neg : Bool) (q : ℚ) : ℚ := if neg then -q else q

def mantissaVal (ip fp : List Char) : ℚ :=
  (digitsToNat ip : ℚ) + (digitsToNat fp : ℚ) / (10 : ℚ) ^ fp.length

/-- The sign-stripped grammar of Rust's `f64: FromStr`: `inf`, `infinity` and
`nan` case-insensitively, or digits with an optional decimal point (digits
required on at least one side) and an optional exponent. -/
def parseF64NoSign (cs : List Char) (neg : Bool) : Option F64 :=
  if lowerChars cs = "inf".data ∨ lowerChars cs = "infinity".data then
    some (.infinite neg)
  else if lowerChars cs = "nan".data then
    some .nanValue
  else
    match splitAtExpMark cs with
    | (m, expPart) =>
      match splitAtDot m with
      | (ip, fpOpt) =>
        let fp := fpOpt.getD []
        if ip.all isAsciiDigit ∧ fp.all isAsciiDigit ∧ 0 < ip.length + fp.length then
          match expPart with
          | none => some (.finite (applySign neg (mantissaVal ip fp)))
          | some ecs =>
            match parseExpChars ecs with
            | none => none
            | some ex => some (.finite (applySign neg (mantissaVal ip fp * qPow10 ex)))
        else none

/-- `s.parse::<f64>()` as used by `string_to_float::deserialize`. -/
def parseF64 (s : String) : Option F64 :=
  match s.data with
  | '+' :: rest => parseF64NoSign rest false
  | '-' :: rest => parseF64NoSign rest true
  | rest => parseF64NoSign rest false

/-- JSON documents, as seen by serde_json. A number records whether its
literal form was fractional/exponential (stored as `f64`) or an integer
literal (stored as `i64`/`u64`), which serde distinguishes. -/
inductive Json where
  | null
  | bool (b : Bool)
  | num (q : ℚ) (isFloat : Bool)
  | str (s : String)
  | arr (elems : List Json)
  | obj (fields : List (String × Json))

def Json.asObj : Json → Option (List (String × Json))
  | .obj fs => some fs
  | _ => none

def Json.asArr : Json → Option (List Json)
  | .arr es => some es
  | _ => none

def Json.asStr : Json → Option String
  | .str s => some s
  | _ => none

def Json.asBool : Json → Option Bool
  | .bool b => some b
  | _ => none

/-- serde `i64`: an integer-literal number in `i64` range. -/
def Json.asI64 : Json → Option Int
  | .num q false =>
      if q.den = 1 ∧ -(2 ^ 63) ≤ q.num ∧ q.num < 2 ^ 63 then some q.num else none
  | _ => none

/-- serde `i32`: an integer-literal number in `i32` range. -/
def Json.asI32 : Json → Option Int
  | .num q false =>
      if q.den = 1 ∧ -(2 ^ 31) ≤ q.num ∧ q.num < 2 ^ 31 then some q.num else none
  | _ => none

/-- serde `f64` from a JSON number: any numeric literal. -/
def Json.asF64 : Json → Option ℚ
  | .num q _ => some q
  | _ => none

/-- serde struct-field access: the field must be present exactly once
(duplicate known fields are a serde error; unknown fields are ignored). -/
def field1 (fs : List (String × Json)) (k : String) : Option Json :=
  match fs.filter (fun p => p.1 == k) with
  | [p] => some p.2
  | _ => none

/-- serde access to an `Option<_>` struct field: absent means `None`. -/
def fieldOpt (fs : List (String × Json)) (k : String) : Option (Option Json) :=
  match fs.filter (fun p => p.1 == k) with
  | [] => some none
  | [p] => some (some p.2)
  | _ => none

/-- serde `Option<String>`: `null` is `None`, a string is `Some`. -/
def parseOptString : Json → Option (Option String)
  | .null => some none
  | .str s => some (some s)
  | _ => none

/-- The `Trade` struct of `src/types.rs`; `px`/`sz` go through
`string_to_float`. -/
structure Trade where
  coin : String
  side : String
  px : F64
  sz : F64
  time : Int
  hash : String
  tid : Int
  users : List String
deriving DecidableEq

def parseTrade (j : Json) : Option Trade := do
  let fs ← j.asObj
  let coin ← (field1 fs "coin").bind Json.asStr
  let side ← (field1 fs "side").bind Json.asStr
  let px ← ((field1 fs "px").bind Json.asStr).bind parseF64
  let sz ← ((field1 fs "sz").bind Json.asStr).bind parseF64
  let time ← (field1 fs "time").bind Json.asI64
  let hash ← (field1 fs "hash").bind Json.asStr
  let tid ← (field1 fs "tid").bind Json.asI64
  let usersJson ← (field1 fs "users").bind Json.asArr
  let users ← usersJson.mapM Json.asStr
  return { coin, side, px, sz, time, hash, tid, users }

def parseTradeList (es : List Json) : Option (List Trade) := es.mapM parseTrade

structure Level where
  px : F64
  sz : F64
  n : Int
deriving DecidableEq

def parseLevel (j : Json) : Option Level := do
  let fs ← j.asObj
  let px ← ((field1 fs "px").bind Json.asStr).bind parseF64
  let sz ← ((field1 fs "sz").bind Json.asStr).bind parseF64
  let n ← (field1 fs "n").bind Json.asI32
  return { px, sz, n }

structure Book where
  coin : String
  levels : List Level × List Level
  time : Int
deriving DecidableEq

/-- serde `(Vec<Level>, Vec<Level>)`: an array of exactly two level arrays. -/
def parseLevelPair (j : Json) : Option (List Level × List Level) := do
  match ← j.asArr with
  | [a, b] => do
      let aa ← (← a.asArr).mapM parseLevel
      let bb ← (← b.asArr).mapM parseLevel
      return (aa, bb)
  | _ => none

def parseBook (j : Json) : Option Book := do
  let fs ← j.asObj
  let coin ← (field1 fs "coin").bind Json.asStr
  let levels ← (field1 fs "levels").bind parseLevelPair
  let time ← (field1 fs "time").bind Json.asI64
  return { coin, levels, time }

structure Bbo where
  coin : String
  time : Int
  bbo : Option Level × Option Level
deriving DecidableEq

/-- serde `Option<Level>` inside the BBO pair: `null` is `None`. -/
def parseOptLevel : Json → Option (Option Level)
  | .null => some none
  | j => (parseLevel j).map some

def parseBboPair (j : Json) : Option (Option Level × Option Level) := do
  match ← j.asArr with
  | [a, b] => do
      let aa ← parseOptLevel a
      let bb ← parseOptLevel b
      return (aa, bb)
  | _ => none

def parseBbo (j : Json) : Option Bbo := do
  let fs ← j.asObj
  let coin ← (field1 fs "coin").bind Json.asStr
  let time ← (field1 fs "time").bind Json.asI64
  let bbo ← (field1 fs "bbo").bind parseBboPair
  return { coin, time, bbo }

structure AllMids where
  mids : List (String × String)
deriving DecidableEq

/-- serde `HashMap<String, String>` from a JSON object (entries in document
order; only the entry list is ever consumed downstream). -/
def parseMidsObj (j : Json) : Option (List (String × String)) := do
  let fs ← j.asObj
  fs.mapM (fun p => (p.2.asStr).map (fun v => (p.1, v)))

def parseAllMids (j : Json) : Option AllMids := do
  let fs ← j.asObj
  let mids ← (field1 fs "mids").bind parseMidsObj
  return { mids }

structure Candle where
  t : Int
  closeTime : Int
  s : String
  i : String
  o : ℚ
  c : ℚ
  h : ℚ
  l : ℚ
  v : ℚ
  n : Int
deriving DecidableEq

def parseCandle (j : Json) : Option Candle := do
  let fs ← j.asObj
  let t ← (field1 fs "t").bind Json.asI64
  let closeTime ← (field1 fs "T").bind Json.asI64
  let s ← (field1 fs "s").bind Json.asStr
  let i ← (field1 fs "i").bind Json.asStr
  let o ← (field1 fs "o").bind Json.asF64
  let c ← (field1 fs "c").bind Json.asF64
  let h ← (field1 fs "h").bind Json.asF64
  let l ← (field1 fs "l").bind Json.asF64
  let v ← (field1 fs "v").bind Json.asF64
  let n ← (field1 fs "n").bind Json.asI32
  return { t, closeTime, s, i, o, c, h, l, v, n }

def parseCandleList (es : List Json) : Option (List Candle) := es.mapM parseCandle

structure Fill where
  coin : String
  px : String
  sz : String
  side : String
  time : Int
  startPosition : String
  dir : String
  closedPnl : String
  hash : String
  oid : Int
  crossed : Bool
  fee : String
  tid : Int
  feeToken : String
  builderFee : Option String
deriving DecidableEq

/-- First half of the `Fill` fields (split in two only to keep code
generation tractable; the parsed fields and their order match the Rust
struct). -/
def parseFillHead (fs : List (String × Json)) :
    Option (String × String × String × String × Int × String × String × String) := do
  let coin ← (field1 fs "coin").bind Json.asStr
  let px ← (field1 fs "px").bind Json.asStr
  let sz ← (field1 fs "sz").bind Json.asStr
  let side ← (field1 fs "side").bind Json.asStr
  let time ← (field1 fs "time").bind Json.asI64
  let startPosition ← (field1 fs "startPosition").bind Json.asStr
  let dir ← (field1 fs "dir").bind Json.asStr
  let closedPnl ← (field1 fs "closedPnl").bind Json.asStr
  return (coin, px, sz, side, time, startPosition, dir, closedPnl)

/-- Second half of the `Fill` fields. -/
def parseFillTail (fs : List (String × Json)) :
    Option (String × Int × Bool × String × Int × String × Option String) := do
  let hash ← (field1 fs "hash").bind Json.asStr
  let oid ← (field1 fs "oid").bind Json.asI64
  let crossed ← (field1 fs "crossed").bind Json.asBool
  let fee ← (field1 fs "fee").bind Json.asStr
  let tid ← (field1 fs "tid").bind Json.asI64
  let feeToken ← (field1 fs "feeToken").bind Json.asStr
  let builderFeeField ← fieldOpt fs "builderFee"
  let builderFee ←
    match builderFeeField with
    | none => some none
    | some bj => parseOptString bj
  return (hash, oid, crossed, fee, tid, feeToken, builderFee)

def parseFill (j : Json) : Option Fill := do
  let fs ← j.asObj
  let (coin, px, sz, side, time, startPosition, dir, closedPnl) ← parseFillHead fs
  let (hash, oid, crossed, fee, tid, feeToken, builderFee) ← parseFillTail fs
  return { coin, px, sz, side, time, startPosition, dir, closedPnl, hash, oid,
           crossed, fee, tid, feeToken, builderFee }

structure UserFunding where
  time : Int
  coin : String
  usdc : String
  szi : String
  fundingRate : String
deriving DecidableEq

def parseUserFunding (j : Json) : Option UserFunding := do
  let fs ← j.asObj
  let time ← (field1 fs "time").bind Json.asI64
  let coin ← (field1 fs "coin").bind Json.asStr
  let usdc ← (field1 fs "usdc").bind Json.asStr
  let szi ← (field1 fs "szi").bind Json.asStr
  let fundingRate ← (field1 fs "fundingRate").bind Json.asStr
  return { time, coin, usdc, szi, fundingRate }

structure Liquidation where
  lid : Int
  liquidator : String
  liquidatedUser : String
  liquidatedNtlPos : String
  liquidatedAccountValue : String
deriving DecidableEq

def parseLiquidation (j : Json) : Option Liquidation := do
  let fs ← j.asObj
  let lid ← (field1 fs "lid").bind Json.asI64
  let liquidator ← (field1 fs "liquidator").bind Json.asStr
  let liquidatedUser ← (field1 fs "liquidated_user").bind Json.asStr
  let liquidatedNtlPos ← (field1 fs "liquidated_ntl_pos").bind Json.asStr
  let liquidatedAccountValue ← (field1 fs "liquidated_account_value").bind Json.asStr
  return { lid, liquidator, liquidatedUser, liquidatedNtlPos, liquidatedAccountValue }

structure NonUserCancel where
  coin : String
  oid : Int
deriving DecidableEq

def parseNonUserCancel (j : Json) : Option NonUserCancel := do
  let fs ← j.asObj
  let coin ← (field1 fs "coin").bind Json.asStr
  let oid ← (field1 fs "oid").bind Json.asI64
  return { coin, oid }

/-- The untagged `UserEvent` union of `src/types.rs`. -/
inductive UserEvent where
  | fills (fills : List Fill)
  | funding (funding : UserFunding)
  | liquidation (liquidation : Liquidation)
  | nonUserCancel (cancels : List NonUserCancel)
deriving DecidableEq

/-- serde tries the untagged variants in declaration order. -/
def parseUserEvent (j : Json) : Option UserEvent :=
  (do
    let fs ← j.asObj
    let fills ← ((field1 fs "fills").bind Json.asArr).bind (List.mapM parseFill)
    return UserEvent.fills fills) <|>
  (do
    let fs ← j.asObj
    let f ← (field1 fs "funding").bind parseUserFunding
    return UserEvent.funding f) <|>
  (do
    let fs ← j.asObj
    let l ← (field1 fs "liquidation").bind parseLiquidation
    return UserEvent.liquidation l) <|>
  (do
    let fs ← j.asObj
    let cs ← ((field1 fs "non_user_cancel").bind Json.asArr).bind
      (List.mapM parseNonUserCancel)
    return UserEvent.nonUserCancel cs)

structure Notification where
  notification : String
deriving DecidableEq

def parseNotification (j : Json) : Option Notification := do
  let fs ← j.asObj
  let n ← (field1 fs "notification").bind Json.asStr
  return { notification := n }

structure Channel where
  channel : String
deriving DecidableEq

def parseChannelOnly (j : Json) : Option Channel := do
  let fs ← j.asObj
  let c ← (field1 fs "channel").bind Json.asStr
  return { channel := c }

structure Subscription where
  subscriptionType : String
  coin : String
deriving DecidableEq

def parseSubscription (j : Json) : Option Subscription := do
  let fs ← j.asObj
  let t ← (field1 fs "type").bind Json.asStr
  let coin ← (field1 fs "coin").bind Json.asStr
  return { subscriptionType := t, coin }

structure SubscriptionResponseData where
  method : String
  subscription : Subscription
deriving DecidableEq

def parseSubscriptionResponseData (j : Json) : Option SubscriptionResponseData := do
  let fs ← j.asObj
  let method ← (field1 fs "method").bind Json.asStr
  let subscription ← (field1 fs "subscription").bind parseSubscription
  return { method, subscription }

structure SubscriptionResponse where
  channel : String
  data : SubscriptionResponseData
deriving DecidableEq

def parseSubscriptionResponse (j : Json) : Option SubscriptionResponse := do
  let fs ← j.asObj
  let channel ← (field1 fs "channel").bind Json.asStr
  let data ← (field1 fs "data").bind parseSubscriptionResponseData
  return { channel, data }

structure TradeDataMessage where
  channel : String
  data : List Trade
deriving DecidableEq

def parseTradeDataMessage (j : Json) : Option TradeDataMessage := do
  let fs ← j.asObj
  let channel ← (field1 fs "channel").bind Json.asStr
  let data ← ((field1 fs "data").bind Json.asArr).bind parseTradeList
  return { channel, data }

structure BookDataMessage where
  channel : String
  data : Book
deriving DecidableEq

def parseBookDataMessage (j : Json) : Option BookDataMessage := do
  let fs ← j.asObj
  let channel ← (field1 fs "channel").bind Json.asStr
  let data ← (field1 fs "data").bind parseBook
  return { channel, data }

structure BboDataMessage where
  channel : String
  data : Bbo
deriving DecidableEq

def parseBboDataMessage (j : Json) : Option BboDataMessage := do
  let fs ← j.asObj
  let channel ← (field1 fs "channel").bind Json.asStr
  let data ← (field1 fs "data").bind parseBbo
  return { channel, data }

structure AllMidsDataMessage where
  channel : String
  data : AllMids
deriving DecidableEq

def parseAllMidsDataMessage (j : Json) : Option AllMidsDataMessage := do
  let fs ← j.asObj
  let channel ← (field1 fs "channel").bind Json.asStr
  let data ← (field1 fs "data").bind parseAllMids
  return { channel, data }

structure CandleDataMessage where
  channel : String
  data : List Candle
deriving DecidableEq

def parseCandleDataMessage (j : Json) : Option CandleDataMessage := do
  let fs ← j.asObj
  let channel ← (field1 fs "channel").bind Json.asStr
  let data ← ((field1 fs "data").bind Json.asArr).bind parseCandleList
  return { channel, data }

structure UserEventMessage where
  channel : String
  data : UserEvent
deriving DecidableEq

def parseUserEventMessage (j : Json) : Option UserEventMessage := do
  let fs ← j.asObj
  let channel ← (field1 fs "channel").bind Json.asStr
  let data ← (field1 fs "data").bind parseUserEvent
  return { channel, data }

structure NotificationMessage where
  channel : String
  data : Notification
deriving DecidableEq

def parseNotificationMessage (j : Json) : Option NotificationMessage := do
  let fs ← j.asObj
  let channel ← (field1 fs "channel").bind Json.asStr
  let data ← (field1 fs "data").bind parseNotification
  return { channel, data }

/-- The untagged `WebSocketMessage` union of `src/types.rs`, in declaration
order. -/
inductive WebSocketMessage where
  | subscriptionResponse (m : SubscriptionResponse)
  | tradeData (m : TradeDataMessage)
  | bookData (m : BookDataMessage)
  | bboData (m : BboDataMessage)
  | allMidsData (m : AllMidsDataMessage)
  | candleData (m : CandleDataMessage)
  | userEvent (m : UserEventMessage)
  | notification (m : NotificationMessage)
  | directTrades (trades : List Trade)
  | directCandles (candles : List Candle)
  | ping (c : Channel)
deriving DecidableEq

/-- The message classifier: serde's untagged deserialization of
`WebSocketMessage`, trying the variants in declaration order and returning
the first success, or `none` when every shape fails. -/
def classify (j : Json) : Option WebSocketMessage :=
  ((parseSubscriptionResponse j).map WebSocketMessage.subscriptionResponse) <|>
  ((parseTradeDataMessage j).map WebSocketMessage.tradeData) <|>
  ((parseBookDataMessage j).map WebSocketMessage.bookData) <|>
  ((parseBboDataMessage j).map WebSocketMessage.bboData) <|>
  ((parseAllMidsDataMessage j).map WebSocketMessage.allMidsData) <|>
  ((parseCandleDataMessage j).map WebSocketMessage.candleData) <|>
  ((parseUserEventMessage j).map WebSocketMessage.userEvent) <|>
  ((parseNotificationMessage j).map WebSocketMessage.notification) <|>
  ((j.asArr.bind parseTradeList).map WebSocketMessage.directTrades) <|>
  ((j.asArr.bind parseCandleList).map WebSocketMessage.directCandles) <|>
  ((parseChannelOnly j).map WebSocketMessage.ping)

/-- The text of an inbound frame: either invalid JSON or a JSON document.
`serde_json::from_str::<WebSocketMessage>` fails on the former and runs the
untagged classifier on the latter. -/
inductive TextPayload where
  | malformed (raw : String)
  | jsonDoc (j : Json)

def classifyPayload : TextPayload → Option WebSocketMessage
  | .malformed _ => none
  | .jsonDoc j => classify j

/-! ## Configuration, from `src/config.rs` and `src/cli.rs` -/

/-- A parsed URL as used by `connect_and_run` (`url::Url`). -/
structure EmbUrl where
  scheme : String
  host : Option String
  port : Option Nat
  path : String
deriving DecidableEq

/-- `url.port_or_known_default().unwrap_or(443)`. -/
def EmbUrl.effectivePort (u : EmbUrl) : Nat :=
  match u.port with
  | some p => p
  | none =>
      if u.scheme = "http" ∨ u.scheme = "ws" then 80 else 443

structure WebSocketConfig where
  url : EmbUrl
  timeoutSecs : Nat
  reconnectDelaySecs : Nat
  maxReconnects : Nat
deriving DecidableEq

structure SubscriptionConfig where
  coin : String
  subscriptionType : String
deriving DecidableEq

structure HealthConfig where
  checkIntervalSecs : Nat
deriving DecidableEq

/-- `Config` (the metrics and logging sections are consumed only by the
metrics server and the formatter, outside the embedded client). -/
structure Config where
  websocket : WebSocketConfig
  subscription : SubscriptionConfig
  health : HealthConfig
deriving DecidableEq

/-- `Config::from_args` on the default CLI values, with a chosen
max-reconnects: url `wss://api.hyperliquid.xyz/ws`, 30 s connect timeout,
5 s reconnect delay, 30 s health-check interval, coin BTC. -/
def defaultConfig (maxReconnects : Nat) : Config where
  websocket :=
    { url := { scheme := "wss", host := some "api.hyperliquid.xyz",
               port := none, path := "/ws" }
      timeoutSecs := 30
      reconnectDelaySecs := 5
      maxReconnects := maxReconnects }
  subscription := { coin := "BTC", subscriptionType := "trades" }
  health := { checkIntervalSecs := 30 }

structure SubscriptionRequest where
  method : String
  subscription : Subscription
deriving DecidableEq

/-- `SubscriptionRequest::new_trades_subscription`. -/
def SubscriptionRequest.new_trades_subscription (coin : String) : SubscriptionRequest :=
  { method := "subscribe"
    subscription := { subscriptionType := "trades", coin := coin } }

/-! ## Events and errors, from `src/events.rs` and `src/error.rs` -/

/-- The `ClientEvent` union (`TradeReceived` payloads are what claims compare;
the raw message of `MessageReceived` is carried as the abstracted payload). -/
inductive ClientEvent where
  | starting
  | connecting (url : EmbUrl)
  | connected (connectionId : Nat)
  | subscriptionSent (req : SubscriptionRequest)
  | subscriptionConfirmed (subType : String) (coin : String)
  | tradeReceived (t : Trade)
  | messageReceived (raw : TextPayload)
  | connectionFailed (msg : String)
  | reconnecting (attempt : Nat) (delaySecs : Nat)
  | healthCheckFailed (reason : String)
  | disconnected
  | stopping

/-- The `HyperliquidError` taxonomy of `src/error.rs`. -/
inductive HlError where
  | webSocketError (msg : String)
  | serdeError (msg : String)
  | httpError (msg : String)
  | urlError (msg : String)
  | ioError (msg : String)
  | timeout
  | connectionClosed
  | subscriptionFailed (message : String)
  | healthCheckFailed (reason : String)
  | maxReconnectsExceeded
  | invalidMessage (msg : String)
  | eventSendError (msg : String)
  | metricsError (msg : String)
deriving DecidableEq

/-! ## Frame handling and dispatch, from `src/client.rs` -/

/-- A WebSocket frame as delivered by `read_frame` (opcode plus payload). -/
inductive WsFrame where
  | text (payload : TextPayload)
  | binary (len : Nat)
  | close
  | ping
  | pong
  | continuation

/-- One scripted step of the transport read: a frame arriving after a silence
gap, or a read error after a silence gap. -/
inductive ReadItem where
  | frame (gapSecs : Nat) (f : WsFrame)
  | readErr (gapSecs : Nat) (msg : String)

/-- Output of message dispatch: updated state, emitted events, and the number
of `TRADE_COUNTER` (Prometheus) increments from `process_trade_metrics`. -/
structure DispatchOut where
  state : ClientState
  events : List ClientEvent
  metricsTrades : Nat

/-- The `for trade in trades` loop of the `DirectTrades` arm of
`handle_websocket_message`: records each trade and emits `TradeReceived`
(this arm does not call `process_trade_metrics`). -/
def directTradesLoop (s : ClientState) : List Trade → DispatchOut
  | [] => ⟨s, [], 0⟩
  | t :: rest =>
      ⟨(directTradesLoop s.record_trade rest).state,
       .tradeReceived t :: (directTradesLoop s.record_trade rest).events,
       (directTradesLoop s.record_trade rest).metricsTrades⟩

/-- `handle_trade_data`: records each trade, emits `TradeReceived`, and calls
`process_trade_metrics` once per trade. -/
def handle_trade_data (s : ClientState) : List Trade → DispatchOut
  | [] => ⟨s, [], 0⟩
  | t :: rest =>
      ⟨(handle_trade_data s.record_trade rest).state,
       .tradeReceived t :: (handle_trade_data s.record_trade rest).events,
       (handle_trade_data s.record_trade rest).metricsTrades + 1⟩

/-- `handle_websocket_message`: dispatch over the classified message. Book,
BBO, all-mids, candle, user-event and notification arms only log (the
notification arm emits no bus event); the subscription-response arm emits
`SubscriptionConfirmed`. -/
def handle_websocket_message (s : ClientState) : WebSocketMessage → DispatchOut
  | .subscriptionResponse r =>
      ⟨s, [.subscriptionConfirmed r.data.subscription.subscriptionType
             r.data.subscription.coin], 0⟩
  | .tradeData m => handle_trade_data s m.data
  | .bookData _ => ⟨s, [], 0⟩
  | .bboData _ => ⟨s, [], 0⟩
  | .allMidsData _ => ⟨s, [], 0⟩
  | .candleData _ => ⟨s, [], 0⟩
  | .userEvent _ => ⟨s, [], 0⟩
  | .notification _ => ⟨s, [], 0⟩
  | .directTrades ts => directTradesLoop s ts
  | .directCandles _ => ⟨s, [], 0⟩
  | .ping _ => ⟨s, [], 0⟩

/-- Output of `handle_frame`: state, events, metrics increments and the
`Result` it returns. -/
structure FrameOut where
  state : ClientState
  events : List ClientEvent
  metricsTrades : Nat
  result : Except HlError Unit

/-- `handle_frame`: a Text frame emits `MessageReceived`, records the message
in the state, then parses; an unparseable payload returns
`Err(InvalidMessage)`. Binary and other opcodes only log. -/
def handle_frame (s : ClientState) (now : Nat) : WsFrame → FrameOut
  | .text p =>
      match classifyPayload p with
      | some m =>
          ⟨(handle_websocket_message (s.record_message now) m).state,
           .messageReceived p :: (handle_websocket_message (s.record_message now) m).events,
           (handle_websocket_message (s.record_message now) m).metricsTrades,
           .ok ()⟩
      | none =>
          ⟨s.record_message now, [.messageReceived p], 0,
           .error (.invalidMessage "failed to parse message")⟩
  | .binary _ => ⟨s, [], 0, .ok ()⟩
  | .close => ⟨s, [], 0, .ok ()⟩
  | .ping => ⟨s, [], 0, .ok ()⟩
  | .pong => ⟨s, [], 0, .ok ()⟩
  | .continuation => ⟨s, [], 0, .ok ()⟩

/-- How the receive loop ends: still blocked in `read_frame` when the script
runs out, or returned `Err(e)`. -/
inductive StreamExit where
  | listening
  | exit (e : HlError)
deriving DecidableEq

structure StreamOut where
  state : ClientState
  events : List ClientEvent
  metricsTrades : Nat
  exit : StreamExit

/-- `handle_message_stream`: the receive loop. A `read_frame` error returns
`Err(WebSocketError)`; a Close frame emits `Disconnected` and returns
`Err(ConnectionClosed)`; Text/Binary frames go through `handle_frame`, whose
error is logged and the loop continues; Ping/Pong/Continuation only log.
The loop consults no clock and no health configuration: the inter-arrival
gaps are threaded only into the recorded timestamps. -/
def handle_message_stream (s : ClientState) (now : Nat) : List ReadItem → StreamOut
  | [] => ⟨s, [], 0, .listening⟩
  | .readErr _ msg :: _ => ⟨s, [], 0, .exit (.webSocketError msg)⟩
  | .frame gap f :: rest =>
      match f with
      | .close => ⟨s, [.disconnected], 0, .exit .connectionClosed⟩
      | .ping => handle_message_stream s (now + gap) rest
      | .pong => handle_message_stream s (now + gap) rest
      | .continuation => handle_message_stream s (now + gap) rest
      | .text p =>
          ⟨(handle_message_stream (handle_frame s (now + gap) (.text p)).state
              (now + gap) rest).state,
           (handle_frame s (now + gap) (.text p)).events ++
             (handle_message_stream (handle_frame s (now + gap) (.text p)).state
               (now + gap) rest).events,
           (handle_frame s (now + gap) (.text p)).metricsTrades +
             (handle_message_stream (handle_frame s (now + gap) (.text p)).state
               (now + gap) rest).metricsTrades,
           (handle_message_stream (handle_frame s (now + gap) (.text p)).state
             (now + gap) rest).exit⟩
      | .binary len =>
          ⟨(handle_message_stream (handle_frame s (now + gap) (.binary len)).state
              (now + gap) rest).state,
           (handle_frame s (now + gap) (.binary len)).events ++
             (handle_message_stream (handle_frame s (now + gap) (.binary len)).state
               (now + gap) rest).events,
           (handle_frame s (now + gap) (.binary len)).metricsTrades +
             (handle_message_stream (handle_frame s (now + gap) (.binary len)).state
               (now + gap) rest).metricsTrades,
           (handle_message_stream (handle_frame s (now + gap) (.binary len)).state
             (now + gap) rest).exit⟩

/-! ## The connection attempt and the run loop, from `src/client.rs` -/

/-- One scripted connection attempt: how long the transport connect takes and
whether it succeeds, then the TLS, handshake-write, handshake-response and
subscription-write outcomes, then the inbound stream. -/
structure AttemptScript where
  connectElapsedSecs : Nat
  connectResult : Except String Unit
  tlsResult : Except String Unit
  handshakeWriteResult : Except String Unit
  handshakeResponse : Except String String
  subscribeWriteResult : Except String Unit
  stream : List ReadItem

inductive AttemptOutcome where
  | failed (e : HlError)
  | listening
deriving DecidableEq

/-- Output of `connect_and_run`: state, events, metrics increments, the
seconds actually spent awaiting the TCP connect, and the outcome. -/
structure AttemptOut where
  state : ClientState
  events : List ClientEvent
  metricsTrades : Nat
  connectWaitSecs : Nat
  outcome : AttemptOutcome

def startsWithChars : List Char → List Char → Bool
  | [], _ => true
  | _ :: _, [] => false
  | a :: as, b :: bs => a == b && startsWithChars as bs

def hasSubstrChars (pat : List Char) : List Char → Bool
  | [] => startsWithChars pat []
  | c :: rest => startsWithChars pat (c :: rest) || hasSubstrChars pat rest

/-- `response.contains(pat)`. -/
def containsSubstr (s pat : String) : Bool := hasSubstrChars pat.data s.data

/-- Stage after a successful handshake: emit `Connected`, write the
subscription (failure is `Err(WebSocketError)`), emit `SubscriptionSent`,
then run the receive loop. -/
def streamStage (cfg : Config) (s1 : ClientState) (now : Nat)
    (a : AttemptScript) : AttemptOut :=
  match a.subscribeWriteResult with
  | .error e =>
      ⟨s1, [.connected s1.connectionId], 0, a.connectElapsedSecs,
       .failed (.webSocketError e)⟩
  | .ok _ =>
      ⟨(handle_message_stream s1 (now + a.connectElapsedSecs) a.stream).state,
       .connected s1.connectionId ::
         .subscriptionSent (SubscriptionRequest.new_trades_subscription
           cfg.subscription.coin) ::
         (handle_message_stream s1 (now + a.connectElapsedSecs) a.stream).events,
       (handle_message_stream s1 (now + a.connectElapsedSecs) a.stream).metricsTrades,
       a.connectElapsedSecs,
       match (handle_message_stream s1 (now + a.connectElapsedSecs) a.stream).exit with
       | .listening => .listening
       | .exit e => .failed e⟩

/-- Handshake stage: write the upgrade request, read the response, require
`101 Switching Protocols` in it. -/
def handshakeStage (cfg : Config) (s1 : ClientState) (now : Nat)
    (a : AttemptScript) : AttemptOut :=
  match a.handshakeWriteResult with
  | .error e =>
      ⟨s1, [], 0, a.connectElapsedSecs,
       .failed (.webSocketError ("Failed to write handshake: " ++ e))⟩
  | .ok _ =>
      match a.handshakeResponse with
      | .error e =>
          ⟨s1, [], 0, a.connectElapsedSecs,
           .failed (.webSocketError ("Failed to read handshake response: " ++ e))⟩
      | .ok resp =>
          if containsSubstr resp "101 Switching Protocols" then
            streamStage cfg s1 now a
          else
            ⟨s1, [], 0, a.connectElapsedSecs,
             .failed (.webSocketError ("Handshake failed: " ++ resp))⟩

/-- TLS stage: only for the `wss` scheme. -/
def tlsStage (cfg : Config) (s1 : ClientState) (now : Nat)
    (a : AttemptScript) : AttemptOut :=
  if cfg.websocket.url.scheme = "wss" then
    match a.tlsResult with
    | .error e =>
        ⟨s1, [], 0, a.connectElapsedSecs,
         .failed (.webSocketError ("TLS error: " ++ e))⟩
    | .ok _ => handshakeStage cfg s1 now a
  else handshakeStage cfg s1 now a

/-- `connect_and_run`: resets the connection state FIRST (before any connect
is attempted), emits `Connecting`, requires a URL host, then awaits the TCP
connect to completion — there is no timeout combinator around
`TcpStream::connect`, so the configured `websocket.timeout` is never
consulted and the full transport latency (`connectElapsedSecs`) is waited —
and continues through TLS, handshake, subscription and the receive loop. -/
def connect_and_run (cfg : Config) (s : ClientState) (now : Nat)
    (a : AttemptScript) : AttemptOut :=
  match cfg.websocket.url.host with
  | none =>
      ⟨s.reset_connection now, [.connecting cfg.websocket.url], 0, 0,
       .failed (.webSocketError "Invalid host")⟩
  | some _ =>
      match a.connectResult with
      | .error e =>
          ⟨s.reset_connection now, [.connecting cfg.websocket.url], 0,
           a.connectElapsedSecs, .failed (.ioError e)⟩
      | .ok _ =>
          ⟨(tlsStage cfg (s.reset_connection now) now a).state,
           .connecting cfg.websocket.url ::
             (tlsStage cfg (s.reset_connection now) now a).events,
           (tlsStage cfg (s.reset_connection now) now a).metricsTrades,
           (tlsStage cfg (s.reset_connection now) now a).connectWaitSecs,
           (tlsStage cfg (s.reset_connection now) now a).outcome⟩

/-- Output of `handle_connection_error`. -/
structure ReconnectOut where
  state : ClientState
  events : List ClientEvent
  result : Except HlError Unit

/-- `handle_connection_error`: increments the reconnect counter, then fails
permanently iff `reconnect_count >= max_reconnects && max_reconnects > 0`
(signalling `MaxReconnectsExceeded`); otherwise emits `Reconnecting` and
sleeps the configured delay. -/
def handle_connection_error (cfg : Config) (s : ClientState) (now : Nat) :
    ReconnectOut :=
  if (s.increment_reconnect now).reconnectCount ≥ cfg.websocket.maxReconnects ∧
      0 < cfg.websocket.maxReconnects then
    ⟨s.increment_reconnect now, [], .error .maxReconnectsExceeded⟩
  else
    ⟨s.increment_reconnect now,
     [.reconnecting (s.increment_reconnect now).reconnectCount
        cfg.websocket.reconnectDelaySecs],
     .ok ()⟩

inductive RunStatus where
  | fatal (e : HlError)
  | scriptDone
deriving DecidableEq

structure RunOut where
  state : ClientState
  events : List ClientEvent
  status : RunStatus

/-- The `loop` body of `run` over a script of attempts: every failed
`connect_and_run` goes through `handle_connection_error`, whose error
propagates out of `run` via `?` (ending the client with no further connect
attempt); otherwise the loop retries after the delay. `scriptDone` means the
script ended while the client was still connected or retrying. -/
def runAttempts (cfg : Config) (s : ClientState) (now : Nat) :
    List AttemptScript → RunOut
  | [] => ⟨s, [], .scriptDone⟩
  | a :: rest =>
      match (connect_and_run cfg s now a).outcome with
      | .listening =>
          ⟨(connect_and_run cfg s now a).state,
           (connect_and_run cfg s now a).events, .scriptDone⟩
      | .failed _ =>
          match (handle_connection_error cfg (connect_and_run cfg s now a).state
              (now + (connect_and_run cfg s now a).connectWaitSecs)).result with
          | .error e2 =>
              ⟨(handle_connection_error cfg (connect_and_run cfg s now a).state
                  (now + (connect_and_run cfg s now a).connectWaitSecs)).state,
               (connect_and_run cfg s now a).events ++
                 (handle_connection_error cfg (connect_and_run cfg s now a).state
                   (now + (connect_and_run cfg s now a).connectWaitSecs)).events,
               .fatal e2⟩
          | .ok _ =>
              ⟨(runAttempts cfg
                  (handle_connection_error cfg (connect_and_run cfg s now a).state
                    (now + (connect_and_run cfg s now a).connectWaitSecs)).state
                  (now + (connect_and_run cfg s now a).connectWaitSecs +
                    cfg.websocket.reconnectDelaySecs) rest).state,
               (connect_and_run cfg s now a).events ++
                 (handle_connection_error cfg (connect_and_run cfg s now a).state
                   (now + (connect_and_run cfg s now a).connectWaitSecs)).events ++
                 (runAttempts cfg
                   (handle_connection_error cfg (connect_and_run cfg s now a).state
                     (now + (connect_and_run cfg s now a).connectWaitSecs)).state
                   (now + (connect_and_run cfg s now a).connectWaitSecs +
                     cfg.websocket.reconnectDelaySecs) rest).events,
               (runAttempts cfg
                 (handle_connection_error cfg (connect_and_run cfg s now a).state
                   (now + (connect_and_run cfg s now a).connectWaitSecs)).state
                 (now + (connect_and_run cfg s now a).connectWaitSecs +
                   cfg.websocket.reconnectDelaySecs) rest).status⟩

/-- `run`: emits `Starting` then drives the attempt loop (the `Stopping`
path is reached only on an `Ok` from `connect_and_run`, which the receive
loop never returns). -/
def runClient (cfg : Config) (s : ClientState) (scripts : List AttemptScript) :
    RunOut :=
  ⟨(runAttempts cfg s 0 scripts).state,
   .starting :: (runAttempts cfg s 0 scripts).events,
   (runAttempts cfg s 0 scripts).status⟩

/-- An attempt whose TCP connect is refused immediately. -/
def failScript : AttemptScript where
  connectElapsedSecs := 0
  connectResult := .error "connection refused"
  tlsResult := .ok ()
  handshakeWriteResult := .ok ()
  handshakeResponse := .ok "HTTP/1.1 101 Switching Protocols"
  subscribeWriteResult := .ok ()
  stream := []

/-! ## Trade helpers, from `impl Trade` in `src/types.rs` -/

/-- `str::eq_ignore_ascii_case`. -/
def eqIgnoreAsciiCase (a b : String) : Bool :=
  lowerChars a.data == lowerChars b.data

/-- `Trade::is_buy`. -/
def Trade.is_buy (t : Trade) : Bool :=
  eqIgnoreAsciiCase t.side "B" || eqIgnoreAsciiCase t.side "BUY"

/-- `Trade::side_formatted`: the normalized side. -/
def Trade.side_formatted (t : Trade) : String :=
  if t.is_buy then "BUY" else "SELL"

/-- Whether an `F64` is a non-negative finite value. -/
def F64.nonNegFiniteB : F64 → Bool
  | .finite q => decide (0 ≤ q)
  | _ => false

/-! ### Tracker lemmas -/

theorem lookupTid_insertTid (m : List (String × Int)) (k : String) (v : Int) :
    lookupTid (insertTid m k v) k = some v := by
  induction m with
  | nil => simp [insertTid, lookupTid]
  | cons p rest ih =>
      obtain ⟨a, b⟩ := p
      by_cases h : a = k
      · simp [insertTid, lookupTid, h]
      · simp [insertTid, lookupTid, h, ih]

/-- After submitting `tid` for `coin` (whether accepted or rejected), the
per-coin last-seen identifier is `tid`. -/
theorem validate_last (s : ClientState) (coin : String) (tid : Int) :
    lookupTid (s.validate_trade_sequence coin tid).2.lastTradeIds coin = some tid := by
  unfold ClientState.validate_trade_sequence
  split
  · next h =>
      rcases h with ⟨h1, h2⟩
      cases hl : lookupTid s.lastTradeIds coin with
      | none => rw [hl] at h2; simp at h2
      | some v => rw [hl] at h1; simp at h1; simp [hl, h1]
  · simpa using lookupTid_insertTid s.lastTradeIds coin tid

/-- Rejection implies the submitted id was exactly the stored last-seen id
for that coin, and that id is positive. -/
theorem validate_reject_means_repeat (s : ClientState) (coin : String) (tid : Int)
    (h : (s.validate_trade_sequence coin tid).1 = false) :
    lookupTid s.lastTradeIds coin = some tid ∧ 0 < tid := by
  unfold ClientState.validate_trade_sequence at h
  split at h
  · next hc =>
      rcases hc with ⟨h1, h2⟩
      cases hl : lookupTid s.lastTradeIds coin with
      | none => rw [hl] at h2; simp at h2
      | some v =>
          rw [hl] at h1 h2
          simp at h1 h2
          exact ⟨by rw [h1], by omega⟩
  · simp at h

/-- Submitting the stored positive last-seen id again is rejected and bumps
the duplicate counter. -/
theorem validate_repeat_of_last (s : ClientState) (coin : String) (tid : Int)
    (hpos : 0 < tid) (hlast : lookupTid s.lastTradeIds coin = some tid) :
    (s.validate_trade_sequence coin tid).1 = false ∧
    (s.validate_trade_sequence coin tid).2.duplicateTrades
      = (s.duplicateTrades + 1) % u64Lim := by
  constructor <;> simp [ClientState.validate_trade_sequence, hlast, hpos]

/-- Submitting an id different from the stored last-seen id is accepted and
stores the new id. -/
theorem validate_accept_of_ne (s : ClientState) (coin : String) (a b : Int)
    (hlast : lookupTid s.lastTradeIds coin = some a) (hba : b ≠ a) :
    (s.validate_trade_sequence coin b).1 = true ∧
    lookupTid (s.validate_trade_sequence coin b).2.lastTradeIds coin = some b := by
  constructor <;>
    simp [ClientState.validate_trade_sequence, hlast, hba, lookupTid_insertTid]

/-! ### Receive-loop and connection-attempt shape lemmas -/

/-- The receive loop can only end still-listening, with a transport read
error, or with `ConnectionClosed`; no other error (in particular no timeout
and no health-check failure) is ever produced by it. -/
theorem stream_exit_shape (items : List ReadItem) : ∀ (s : ClientState) (now : Nat),
    (handle_message_stream s now items).exit = .listening ∨
    (∃ m, (handle_message_stream s now items).exit = .exit (.webSocketError m)) ∨
    (handle_message_stream s now items).exit = .exit .connectionClosed := by
  induction items with
  | nil => intro s now; exact Or.inl rfl
  | cons item rest ih =>
      intro s now
      cases item with
      | readErr g m => exact Or.inr (Or.inl ⟨m, rfl⟩)
      | frame g f =>
          cases f with
          | close => exact Or.inr (Or.inr rfl)
          | ping => exact ih s (now + g)
          | pong => exact ih s (now + g)
          | continuation => exact ih s (now + g)
          | text p => exact ih _ (now + g)
          | binary len => exact ih _ (now + g)

/-- The benign outcomes a connection attempt can produce. -/
def benignOutcome (o : AttemptOutcome) : Prop :=
  o = .listening ∨ (∃ m, o = .failed (.webSocketError m)) ∨
    o = .failed .connectionClosed ∨ (∃ m, o = .failed (.ioError m))

theorem streamStage_benign (cfg : Config) (s1 : ClientState) (now : Nat)
    (a : AttemptScript) : benignOutcome (streamStage cfg s1 now a).outcome := by
  unfold streamStage
  split
  · exact Or.inr (Or.inl ⟨_, rfl⟩)
  · rcases stream_exit_shape a.stream s1 (now + a.connectElapsedSecs) with h | ⟨m, h⟩ | h <;>
      simp [benignOutcome, h]

theorem handshakeStage_benign (cfg : Config) (s1 : ClientState) (now : Nat)
    (a : AttemptScript) : benignOutcome (handshakeStage cfg s1 now a).outcome := by
  unfold handshakeStage
  split
  · exact Or.inr (Or.inl ⟨_, rfl⟩)
  · split
    · exact Or.inr (Or.inl ⟨_, rfl⟩)
    · split
      · exact streamStage_benign cfg s1 now a
      · exact Or.inr (Or.inl ⟨_, rfl⟩)

theorem tlsStage_benign (cfg : Config) (s1 : ClientState) (now : Nat)
    (a : AttemptScript) : benignOutcome (tlsStage cfg s1 now a).outcome := by
  unfold tlsStage
  split
  · split
    · exact Or.inr (Or.inl ⟨_, rfl⟩)
    · exact handshakeStage_benign cfg s1 now a
  · exact handshakeStage_benign cfg s1 now a

/-- Every outcome of `connect_and_run` is benign: still listening, a
transport/protocol `WebSocketError`, `ConnectionClosed`, or an `IoError`.
In particular the timeout and health-check errors are unreachable. -/
theorem connect_and_run_benign (cfg : Config) (s : ClientState) (now : Nat)
    (a : AttemptScript) : benignOutcome (connect_and_run cfg s now a).outcome := by
  unfold connect_and_run
  cases cfg.websocket.url.host with
  | none => exact Or.inr (Or.inl ⟨_, rfl⟩)
  | some h =>
      cases a.connectResult with
      | error e => exact Or.inr (Or.inr (Or.inr ⟨_, rfl⟩))
      | ok _ => exact tlsStage_benign cfg (s.reset_connection now) now a

theorem streamStage_wait (cfg : Config) (s1 : ClientState) (now : Nat)
    (a : AttemptScript) :
    (streamStage cfg s1 now a).connectWaitSecs = a.connectElapsedSecs := by
  unfold streamStage
  split <;> rfl

theorem handshakeStage_wait (cfg : Config) (s1 : ClientState) (now : Nat)
    (a : AttemptScript) :
    (handshakeStage cfg s1 now a).connectWaitSecs = a.connectElapsedSecs := by
  unfold handshakeStage
  split
  · rfl
  · split
    · rfl
    · split
      · exact streamStage_wait cfg s1 now a
      · rfl

theorem tlsStage_wait (cfg : Config) (s1 : ClientState) (now : Nat)
    (a : AttemptScript) :
    (tlsStage cfg s1 now a).connectWaitSecs = a.connectElapsedSecs := by
  unfold tlsStage
  split
  · split
    · rfl
    · exact handshakeStage_wait cfg s1 now a
  · exact handshakeStage_wait cfg s1 now a

/-! ### Claim C1: permanent-failure timing of the reconnect limit -/

/-- One refused-connect step of the run loop under `defaultConfig 2`:
the attempt resets the counter to 0, the failure bumps it to 1, `1 >= 2` is
false, so the loop always retries. -/
theorem runAttempts_failStep_max2 (s : ClientState) (now : Nat)
    (rest : List AttemptScript) :
    (runAttempts (defaultConfig 2) s now (failScript :: rest)).status =
      (runAttempts (defaultConfig 2)
        ((s.reset_connection now).increment_reconnect now) (now + 5) rest).status := rfl

/-- Same single step under `defaultConfig 0` (unlimited). -/
theorem runAttempts_failStep_max0 (s : ClientState) (now : Nat)
    (rest : List AttemptScript) :
    (runAttempts (defaultConfig 0) s now (failScript :: rest)).status =
      (runAttempts (defaultConfig 0)
        ((s.reset_connection now).increment_reconnect now) (now + 5) rest).status := rfl

/-- Claim C1, code bug: because `connect_and_run` calls `reset_connection`
(zeroing the counter) at the start of every attempt, the counter equals 1
after every consecutive failure. Hence with `max_reconnects = 2` (any value
at least 2) the `MaxReconnectsExceeded` signal is NEVER produced, no matter
how many consecutive failures occur — not at the (N+1)-th as claimed — while
with `max_reconnects = 1` it is produced already at the 1st failed attempt,
not the 2nd. With `max_reconnects = 0` the client indeed never fails
permanently. -/
theorem claimC1_max_reconnects_signal_timing :
    (∀ (s : ClientState) (now : Nat) (n : Nat),
      (runAttempts (defaultConfig 2) s now (List.replicate n failScript)).status
        = .scriptDone) ∧
    ((runClient (defaultConfig 1) ClientState.new [failScript]).status
        = .fatal .maxReconnectsExceeded) ∧
    (∀ (s : ClientState) (now : Nat) (n : Nat),
      (runAttempts (defaultConfig 0) s now (List.replicate n failScript)).status
        = .scriptDone) := by
  refine ⟨?_, rfl, ?_⟩
  · intro s now n
    induction n generalizing s now with
    | zero => rfl
    | succ n ih =>
        rw [List.replicate_succ, runAttempts_failStep_max2]
        exact ih _ _
  · intro s now n
    induction n generalizing s now with
    | zero => rfl
    | succ n ih =>
        rw [List.replicate_succ, runAttempts_failStep_max0]
        exact ih _ _

/-! ### Claim C2: when the reconnect counter is reset -/

/-- Claim C2, code bug: the counter is reset to 0 by `reset_connection` at
the top of every `connect_and_run`, i.e. by a connection attempt that has not
yet succeeded — not only on reaching `Listening`. Concretely, entering a new
attempt with a stored count of 5 and failing at the TCP connect leaves the
count at 0, and the subsequent `handle_connection_error` leaves it at 1 (the
claim would require 6). The increment half of the claim does hold:
`increment_reconnect` adds exactly 1 (a wrapping `u32` `fetch_add`). -/
theorem claimC2_reset_on_attempt_entry :
    ((connect_and_run (defaultConfig 5)
        { ClientState.new with reconnectCount := 5 } 0 failScript).state.reconnectCount
      = 0) ∧
    ((handle_connection_error (defaultConfig 5)
        (connect_and_run (defaultConfig 5)
          { ClientState.new with reconnectCount := 5 } 0 failScript).state
        0).state.reconnectCount = 1) ∧
    (∀ (s : ClientState) (now : Nat),
      (s.increment_reconnect now).reconnectCount = (s.reconnectCount + 1) % u32Lim) ∧
    (∀ (s : ClientState) (now : Nat), (s.reset_connection now).reconnectCount = 0) :=
  ⟨rfl, rfl, fun _ _ => rfl, fun _ _ => rfl⟩

/-- Claim C3, counterexample: the claim fails at trade identifier 0. Starting
from a fresh tracker, submitting id 0 for "BTC" twice in direct succession
leaves the second submission accepted and the duplicate counter untouched,
because the guard `last_tid > 0` in `validate_trade_sequence` treats 0 (the
`unwrap_or(0)` sentinel for "never seen") as not a real previous id. -/
theorem claimC3_counterexample :
    ((ClientState.new.validate_trade_sequence "BTC" 0).2.validate_trade_sequence "BTC" 0).1
      = true ∧
    ((ClientState.new.validate_trade_sequence "BTC" 0).2.validate_trade_sequence
        "BTC" 0).2.duplicateTrades = 0 := by
  constructor <;> rfl

/-- Claim C3, amended: for every tracker state, symbol and *positive* trade
identifier, submitting the same identifier twice in direct succession rejects
the second submission and bumps the duplicate counter (`fetch_add` on a `u64`,
so modulo 2^64); and a rejection happens only on an exact repeat of the
most-recently-seen identifier for that symbol, that identifier being positive. -/
theorem claimC3_duplicate_rejected :
    (∀ (s : ClientState) (coin : String) (tid : Int), 0 < tid →
      ((s.validate_trade_sequence coin tid).2.validate_trade_sequence coin tid).1 = false ∧
      ((s.validate_trade_sequence coin tid).2.validate_trade_sequence
          coin tid).2.duplicateTrades =
        ((s.validate_trade_sequence coin tid).2.duplicateTrades + 1) % u64Lim) ∧
    (∀ (s : ClientState) (coin : String) (tid : Int),
      (s.validate_trade_sequence coin tid).1 = false →
      lookupTid s.lastTradeIds coin = some tid ∧ 0 < tid) := by
  constructor
  · intro s coin tid hpos
    exact validate_repeat_of_last _ coin tid hpos (validate_last s coin tid)
  · exact validate_reject_means_repeat

/-- Witness for claim C3 at a concrete input. -/
theorem claimC3_witness :
    (0 : Int) < 5 ∧
    ((ClientState.new.validate_trade_sequence "BTC" 5).2.validate_trade_sequence "BTC" 5).1
      = false :=
  ⟨by decide, (claimC3_duplicate_rejected.1 ClientState.new "BTC" 5 (by decide)).1⟩

/-- Claim C4: two distinct identifiers submitted in succession for a symbol:
the second submission is always accepted regardless of numeric order, and
every accepted submission stores the submitted identifier as the last-seen
identifier for its symbol. -/
theorem claimC4_distinct_accepted :
    (∀ (s : ClientState) (coin : String) (a b : Int), a ≠ b →
      ((s.validate_trade_sequence coin a).2.validate_trade_sequence coin b).1 = true ∧
      lookupTid ((s.validate_trade_sequence coin a).2.validate_trade_sequence
          coin b).2.lastTradeIds coin = some b) ∧
    (∀ (s : ClientState) (coin : String) (t : Int),
      (s.validate_trade_sequence coin t).1 = true →
      lookupTid (s.validate_trade_sequence coin t).2.lastTradeIds coin = some t) := by
  constructor
  · intro s coin a b hab
    exact validate_accept_of_ne _ coin a b (validate_last s coin a) (Ne.symm hab)
  · intro s coin t _
    exact validate_last s coin t

/-- Witness for claim C4 at a concrete input. -/
theorem claimC4_witness :
    (1 : Int) ≠ 2 ∧
    ((ClientState.new.validate_trade_sequence "BTC" 1).2.validate_trade_sequence "BTC" 2).1
      = true :=
  ⟨by decide, (claimC4_distinct_accepted.1 ClientState.new "BTC" 1 2 (by decide)).1⟩

/-- Claim C10: when `validate_trade_sequence` rejects, the last-seen-identifier
map and every state field other than the duplicate counter are unchanged, and
the duplicate counter is bumped by exactly one (`fetch_add` on a `u64`, hence
modulo 2^64; exactly +1 whenever it does not wrap). -/
theorem claimC10_reject_frame (s : ClientState) (coin : String) (tid : Int)
    (h : (s.validate_trade_sequence coin tid).1 = false) :
    (s.validate_trade_sequence coin tid).2.lastTradeIds = s.lastTradeIds ∧
    (s.validate_trade_sequence coin tid).2.duplicateTrades
      = (s.duplicateTrades + 1) % u64Lim ∧
    (s.duplicateTrades + 1 < u64Lim →
      (s.validate_trade_sequence coin tid).2.duplicateTrades = s.duplicateTrades + 1) ∧
    (s.validate_trade_sequence coin tid).2.sequenceGaps = s.sequenceGaps ∧
    (s.validate_trade_sequence coin tid).2.invalidTimestamps = s.invalidTimestamps ∧
    (s.validate_trade_sequence coin tid).2.tradeCount = s.tradeCount ∧
    (s.validate_trade_sequence coin tid).2.totalMessagesReceived
      = s.totalMessagesReceived ∧
    (s.validate_trade_sequence coin tid).2.reconnectCount = s.reconnectCount ∧
    (s.validate_trade_sequence coin tid).2.isConnected = s.isConnected ∧
    (s.validate_trade_sequence coin tid).2.lastMessageTime = s.lastMessageTime ∧
    (s.validate_trade_sequence coin tid).2.connectionId = s.connectionId ∧
    (s.validate_trade_sequence coin tid).2.lastDisconnectionTime
      = s.lastDisconnectionTime := by
  by_cases hc : tid = (lookupTid s.lastTradeIds coin).getD 0 ∧
      0 < (lookupTid s.lastTradeIds coin).getD 0
  · refine ⟨?_, ?_, ?_, ?_, ?_, ?_, ?_, ?_, ?_, ?_, ?_, ?_⟩ <;>
      simp [ClientState.validate_trade_sequence, hc]
    exact fun hlt => Nat.mod_eq_of_lt hlt
  · exfalso
    simp [ClientState.validate_trade_sequence, hc] at h

/-- Witness for claim C10 at a concrete input. -/
theorem claimC10_witness :
    (((ClientState.new.validate_trade_sequence "BTC" 5).2.validate_trade_sequence
        "BTC" 5).1 = false) ∧
    ((ClientState.new.validate_trade_sequence "BTC" 5).2.validate_trade_sequence
        "BTC" 5).2.lastTradeIds
      = (ClientState.new.validate_trade_sequence "BTC" 5).2.lastTradeIds :=
  ⟨by decide, (claimC10_reject_frame _ "BTC" 5 (by decide)).1⟩

/-! ### Claim C7: the connect timeout -/

/-- An attempt whose TCP connect succeeds after 60 seconds and whose session
then idles. -/
def slowConnectScript : AttemptScript :=
  { failScript with connectResult := .ok (), connectElapsedSecs := 60 }

/-- Claim C7, code bug: the configured connect timeout is never applied.
`TcpStream::connect` is awaited with no timeout combinator, so `connect_and_run`
waits the transport's full connect latency whatever `websocket.timeout` says
(when the URL has a host; with no host it fails before connecting): here a
60 s connect against the default 30 s timeout is waited out in full and the
attempt then proceeds to `Listening`. Moreover no input at all can make it
produce the `Timeout` error, which is constructed nowhere in the client. -/
theorem claimC7_connect_timeout_not_applied :
    (∀ (cfg : Config) (s : ClientState) (now : Nat) (a : AttemptScript),
      (connect_and_run cfg s now a).outcome ≠ .failed .timeout) ∧
    (∀ (cfg : Config) (s : ClientState) (now : Nat) (a : AttemptScript),
      cfg.websocket.url.host ≠ none →
      a.connectResult = .ok () →
      (connect_and_run cfg s now a).connectWaitSecs = a.connectElapsedSecs) ∧
    ((connect_and_run (defaultConfig 0) ClientState.new 0
        slowConnectScript).connectWaitSecs = 60 ∧
     (defaultConfig 0).websocket.timeoutSecs = 30 ∧
     (connect_and_run (defaultConfig 0) ClientState.new 0
        slowConnectScript).outcome = .listening) := by
  refine ⟨?_, ?_, rfl, rfl, rfl⟩
  · intro cfg s now a
    rcases connect_and_run_benign cfg s now a with h | ⟨m, h⟩ | h | ⟨m, h⟩ <;> simp [h]
  · intro cfg s now a hhost hconn
    unfold connect_and_run
    cases hh : cfg.websocket.url.host with
    | none => exact absurd hh hhost
    | some _ => rw [hconn]; exact tlsStage_wait cfg (s.reset_connection now) now a

/-- Witness for the hypotheses of claim C7's second conjunct at a concrete
input. -/
theorem claimC7_witness :
    (defaultConfig 0).websocket.url.host ≠ none ∧
    slowConnectScript.connectResult = .ok () ∧
    (connect_and_run (defaultConfig 0) ClientState.new 0
      slowConnectScript).connectWaitSecs = slowConnectScript.connectElapsedSecs :=
  ⟨by decide, rfl,
    claimC7_connect_timeout_not_applied.2.1 (defaultConfig 0) ClientState.new 0
      slowConnectScript (by decide) rfl⟩

/-! ### Claim C8: the health monitor -/

/-- Claim C8, code bug: no health monitor exists. `handle_message_stream`
consults no timer and takes no health configuration at all: its exit is never
a health-check failure however long the silent gaps are; a 100-second silent
gap (more than 3 × the default 30 s check interval) followed by a ping frame
is simply processed, leaving the session listening; an idle transport with no
data and no error leaves the loop blocked in `read_frame` indefinitely. At
the attempt level, no `connect_and_run` outcome is a health-check failure
either. -/
theorem claimC8_no_health_monitor :
    (∀ (s : ClientState) (now : Nat) (items : List ReadItem) (r : String),
      (handle_message_stream s now items).exit ≠ .exit (.healthCheckFailed r)) ∧
    (∀ (cfg : Config) (s : ClientState) (now : Nat) (a : AttemptScript) (r : String),
      (connect_and_run cfg s now a).outcome ≠ .failed (.healthCheckFailed r)) ∧
    (3 * (defaultConfig 0).health.checkIntervalSecs < 100 ∧
      (handle_message_stream ClientState.new 0
        [.frame 100 .ping]).exit = .listening) ∧
    ((handle_message_stream ClientState.new 0 []).exit = .listening) := by
  refine ⟨?_, ?_, ⟨by decide, rfl⟩, rfl⟩
  · intro s now items r
    rcases stream_exit_shape items s now with h | ⟨m, h⟩ | h <;> simp [h]
  · intro cfg s now a r
    rcases connect_and_run_benign cfg s now a with h | ⟨m, h⟩ | h | ⟨m, h⟩ <;> simp [h]

/-! ### Claim C6: unparseable payloads are logged and skipped -/

/-- Claim C6: a text payload that fails every classifier path makes
`handle_frame` return `Err(InvalidMessage)`, which the receive loop logs and
absorbs: the loop emits `MessageReceived`, records the message in the state,
and continues with the remaining stream exactly as if the bad frame were the
start of it — the session is not terminated and the reconnect path is not
entered because of the parse failure (the exit is whatever the rest of the
stream produces). -/
theorem claimC6_parse_error_skipped (s : ClientState) (now gap : Nat)
    (p : TextPayload) (rest : List ReadItem)
    (h : classifyPayload p = none) :
    handle_message_stream s now (.frame gap (.text p) :: rest) =
      StreamOut.mk
        (handle_message_stream (s.record_message (now + gap)) (now + gap) rest).state
        (.messageReceived p ::
          (handle_message_stream (s.record_message (now + gap)) (now + gap) rest).events)
        (handle_message_stream (s.record_message (now + gap)) (now + gap) rest).metricsTrades
        (handle_message_stream (s.record_message (now + gap)) (now + gap) rest).exit ∧
    (handle_frame s (now + gap) (.text p)).result
      = .error (.invalidMessage "failed to parse message") := by
  constructor <;> simp [handle_message_stream, handle_frame, h]

/-- Witness for claim C6 at a concrete unparseable payload. -/
theorem claimC6_witness :
    classifyPayload (TextPayload.jsonDoc (Json.str "keepalive")) = none ∧
    (handle_message_stream ClientState.new 0
      [.frame 0 (.text (.jsonDoc (.str "keepalive")))]).exit = .listening := by
  refine ⟨rfl, ?_⟩
  rw [(claimC6_parse_error_skipped ClientState.new 0 0
    (TextPayload.jsonDoc (Json.str "keepalive")) [] rfl).1]
  rfl

/-! ### Claim C5: classifier-path equivalence of bare and enveloped trades -/

/-- The trades delivered as `TradeReceived` events, in order. -/
def tradesOfEvents : List ClientEvent → List Trade
  | [] => []
  | .tradeReceived t :: rest => t :: tradesOfEvents rest
  | _ :: rest => tradesOfEvents rest

theorem directTradesLoop_trades (ts : List Trade) : ∀ s : ClientState,
    tradesOfEvents (directTradesLoop s ts).events = ts := by
  induction ts with
  | nil => intro s; rfl
  | cons t rest ih => intro s; simp [directTradesLoop, tradesOfEvents, ih]

theorem handle_trade_data_trades (ts : List Trade) : ∀ s : ClientState,
    tradesOfEvents (handle_trade_data s ts).events = ts := by
  induction ts with
  | nil => intro s; rfl
  | cons t rest ih => intro s; simp [handle_trade_data, tradesOfEvents, ih]

/-- A bare JSON array whose elements all parse as trades classifies as
`DirectTrades` (every earlier untagged variant requires an object). -/
theorem classify_arr_of_trades (es : List Json) (ts : List Trade)
    (h : parseTradeList es = some ts) :
    classify (Json.arr es) = some (.directTrades ts) := by
  have hc : classify (Json.arr es) =
      (((parseTradeList es).map WebSocketMessage.directTrades) <|>
        (((parseCandleList es).map WebSocketMessage.directCandles) <|>
          ((parseChannelOnly (Json.arr es)).map WebSocketMessage.ping))) := rfl
  rw [hc, h]
  rfl

theorem parseSubscriptionResponse_env (c : String) (es : List Json) :
    parseSubscriptionResponse
      (Json.obj [("channel", Json.str c), ("data", Json.arr es)]) = none := rfl

theorem parseTradeDataMessage_env (c : String) (es : List Json) (ts : List Trade)
    (h : parseTradeList es = some ts) :
    parseTradeDataMessage
      (Json.obj [("channel", Json.str c), ("data", Json.arr es)])
        = some ⟨c, ts⟩ := by
  have hp : parseTradeDataMessage
      (Json.obj [("channel", Json.str c), ("data", Json.arr es)]) =
      (parseTradeList es).bind (fun ds => some ⟨c, ds⟩) := rfl
  rw [hp, h]
  rfl

/-- An envelope whose `data` is an array of trades classifies as `TradeData`
(the earlier `SubscriptionResponse` variant needs an object `data`). -/
theorem classify_env_of_trades (c : String) (es : List Json) (ts : List Trade)
    (h : parseTradeList es = some ts) :
    classify (Json.obj [("channel", Json.str c), ("data", Json.arr es)])
      = some (.tradeData ⟨c, ts⟩) := by
  simp only [classify, parseSubscriptionResponse_env, parseTradeDataMessage_env c es ts h]
  rfl

/-- Claim C5: for every trade list (as JSON), the bare-array payload
classifies as `DirectTrades` and the enveloped payload carrying the identical
list classifies as `TradeData`, and dispatching either produces exactly the
same trades as `TradeReceived` events — namely the list itself. -/
theorem claimC5_classifier_path_equivalence (c : String) (es : List Json)
    (ts : List Trade) (h : parseTradeList es = some ts) :
    classify (Json.arr es) = some (.directTrades ts) ∧
    classify (Json.obj [("channel", Json.str c), ("data", Json.arr es)])
      = some (.tradeData ⟨c, ts⟩) ∧
    ∀ s : ClientState,
      tradesOfEvents (handle_websocket_message s (.directTrades ts)).events =
        tradesOfEvents (handle_websocket_message s (.tradeData ⟨c, ts⟩)).events ∧
      tradesOfEvents (handle_websocket_message s (.directTrades ts)).events = ts := by
  refine ⟨classify_arr_of_trades es ts h, classify_env_of_trades c es ts h, ?_⟩
  intro s
  constructor <;>
    simp [handle_websocket_message, directTradesLoop_trades, handle_trade_data_trades]

/-! Concrete evaluations of the float parser. The kernel cannot reduce
`Rat` addition (its normalization runs through well-founded `Nat.gcd`), so
each parse is first evaluated by `rfl` up to the symbolic `mantissaVal` and
the rational arithmetic is then discharged by `norm_num`. -/

theorem mantissaVal_one : mantissaVal ['1'] [] = 1 := by
  unfold mantissaVal
  rw [show digitsToNat ['1'] = 1 from rfl, show digitsToNat [] = 0 from rfl]
  norm_num

theorem mantissaVal_two : mantissaVal ['2'] [] = 2 := by
  unfold mantissaVal
  rw [show digitsToNat ['2'] = 2 from rfl, show digitsToNat [] = 0 from rfl]
  norm_num

theorem mantissaVal_five : mantissaVal ['5'] [] = 5 := by
  unfold mantissaVal
  rw [show digitsToNat ['5'] = 5 from rfl, show digitsToNat [] = 0 from rfl]
  norm_num

theorem parseF64_two : parseF64 "2" = some (.finite 2) := by
  rw [show parseF64 "2" = some (.finite (mantissaVal ['2'] [])) from rfl,
    mantissaVal_two]

theorem parseF64_five : parseF64 "5" = some (.finite 5) := by
  rw [show parseF64 "5" = some (.finite (mantissaVal ['5'] [])) from rfl,
    mantissaVal_five]

theorem parseF64_neg_one : parseF64 "-1" = some (.finite (-1)) := by
  rw [show parseF64 "-1" = some (.finite (-(mantissaVal ['1'] []))) from rfl,
    mantissaVal_one]

theorem parseF64_inf : parseF64 "inf" = some (.infinite false) := rfl

/-- A concrete wire trade object. -/
def demoTradeJson : Json :=
  .obj [("coin", .str "BTC"), ("side", .str "B"), ("px", .str "5"),
        ("sz", .str "2"), ("time", .num 1 false), ("hash", .str "h"),
        ("tid", .num 7 false), ("users", .arr [.str "a", .str "b"])]

def demoTrade : Trade :=
  { coin := "BTC", side := "B", px := .finite 5, sz := .finite 2, time := 1,
    hash := "h", tid := 7, users := ["a", "b"] }

theorem parseTrade_demo : parseTrade demoTradeJson = some demoTrade := by
  rw [show parseTrade demoTradeJson =
      (parseF64 "5").bind (fun px => (parseF64 "2").bind (fun sz =>
        some { coin := "BTC", side := "B", px := px, sz := sz, time := 1,
               hash := "h", tid := 7, users := ["a", "b"] })) from rfl,
    parseF64_five, parseF64_two]
  rfl

/-- Witness for claim C5 at a concrete one-trade payload. -/
theorem claimC5_witness :
    parseTradeList [demoTradeJson] = some [demoTrade] ∧
    classify (Json.arr [demoTradeJson]) = some (.directTrades [demoTrade]) := by
  have hp : parseTradeList [demoTradeJson] = some [demoTrade] := by
    rw [show parseTradeList [demoTradeJson] =
        (parseTrade demoTradeJson).bind (fun t => some [t]) from rfl,
      parseTrade_demo]
    rfl
  exact ⟨hp,
    (claimC5_classifier_path_equivalence "trades" [demoTradeJson] [demoTrade] hp).1⟩

/-! ### Claim C9: deserialized trade invariants -/

/-- A wire trade object with a negative price string. -/
def negPxTradeJson : Json :=
  .obj [("coin", .str "BTC"), ("side", .str "A"), ("px", .str "-1"),
        ("sz", .str "2"), ("time", .num 1700000000000 false),
        ("hash", .str "0xabc"), ("tid", .num 12345 false), ("users", .arr [])]

def negPxTrade : Trade :=
  { coin := "BTC", side := "A", px := .finite (-1), sz := .finite 2,
    time := 1700000000000, hash := "0xabc", tid := 12345, users := [] }

/-- A wire trade object with an infinite price string. -/
def infPxTradeJson : Json :=
  .obj [("coin", .str "BTC"), ("side", .str "S"), ("px", .str "inf"),
        ("sz", .str "2"), ("time", .num 1700000000000 false),
        ("hash", .str "0xdef"), ("tid", .num 12346 false), ("users", .arr [])]

def infPxTrade : Trade :=
  { coin := "BTC", side := "S", px := .infinite false, sz := .finite 2,
    time := 1700000000000, hash := "0xdef", tid := 12346, users := [] }

theorem parseTrade_negPx : parseTrade negPxTradeJson = some negPxTrade := by
  rw [show parseTrade negPxTradeJson =
      (parseF64 "-1").bind (fun px => (parseF64 "2").bind (fun sz =>
        some { coin := "BTC", side := "A", px := px, sz := sz,
               time := 1700000000000, hash := "0xabc", tid := 12345,
               users := [] })) from rfl,
    parseF64_neg_one, parseF64_two]
  rfl

theorem parseTrade_infPx : parseTrade infPxTradeJson = some infPxTrade := by
  rw [show parseTrade infPxTradeJson =
      (parseF64 "inf").bind (fun px => (parseF64 "2").bind (fun sz =>
        some { coin := "BTC", side := "S", px := px, sz := sz,
               time := 1700000000000, hash := "0xdef", tid := 12346,
               users := [] })) from rfl,
    parseF64_inf, parseF64_two]
  rfl

/-- Claim C9, counterexample: deserialization enforces no range on price:
the wire strings `"-1"` (negative) and `"inf"` (non-finite) are both accepted
by `string_to_float` and produce trades whose price is not a non-negative
finite value — contradicting the claimed invariant. -/
theorem claimC9_counterexample :
    (parseTrade negPxTradeJson = some negPxTrade ∧
      negPxTrade.px.nonNegFiniteB = false) ∧
    (parseTrade infPxTradeJson = some infPxTrade ∧
      infPxTrade.px.nonNegFiniteB = false) := by
  refine ⟨⟨parseTrade_negPx, ?_⟩, ⟨parseTrade_infPx, rfl⟩⟩
  show decide ((0 : ℚ) ≤ -1) = false
  norm_num

/-- Claim C9, amended: for every trade produced by deserializing a wire
payload, the normalized side is one of exactly the two canonical values
`"BUY"`/`"SELL"`; price and size are, however, taken from the wire strings by
the float parser with no non-negativity or finiteness validation (a negative
price string is accepted as-is). -/
theorem claimC9_side_normalized_px_unvalidated :
    (∀ (j : Json) (t : Trade), parseTrade j = some t →
      t.side_formatted = "BUY" ∨ t.side_formatted = "SELL") ∧
    parseTrade negPxTradeJson = some negPxTrade := by
  constructor
  · intro j t _
    unfold Trade.side_formatted
    by_cases h : t.is_buy <;> simp [h]
  · exact parseTrade_negPx

/-- Witness for claim C9 at a concrete deserialized trade. -/
theorem claimC9_witness :
    parseTrade negPxTradeJson = some negPxTrade ∧
    (negPxTrade.side_formatted = "BUY" ∨ negPxTrade.side_formatted = "SELL") :=
  ⟨parseTrade_negPx,
    claimC9_side_normalized_px_unvalidated.1 negPxTradeJson negPxTrade
      parseTrade_negPx⟩

end RsHyperliquid
